import Mathlib

/-!
Shallow embedding of the ComVerse 3D-universe selection/animation controller.

Sources:
* `src/Frontend/src/App.tsx` (home-page universe view): `generateVisualProperties`,
  `handleSearchSelect`, `handlePlanetClick`, the Escape handler, and the renderer
  reads of `selectedPlanet` (Planet3D props, open-community button, accessibility
  announcement).
* `src/unnamed/part_002` (user-space universe view, `UserSpace`): the duplicated
  versions of the same handlers and readers.

The controller treats each body's `position3D` value opaquely (it is only passed
through to `animateToTarget`), so the embedding is parametric in the position
type `P`.  Timers armed by `setTimeout(() => setIsAnimating(false), d)` are
modelled as pending absolute expiry times; the host canvas ref
(`canvasRef.current`) is modelled as mounted, so argument evaluation of
`communities[index].position3D` happens whenever the guard is passed.
A JavaScript `TypeError` escaping the handler (from reading `.position3D` of
`undefined`) is recorded in the `threw` flag; the two React state setters that
ran before the throwing expression are still applied, matching React's
batched-update semantics.
-/

/-- React state of the universe views: `selectedPlanet : number | null` and
`isAnimating : boolean`.  Indices are integers because the handlers accept any
JavaScript number for `index`. -/
structure CtrlState where
  selectedPlanet : Option ℤ
  isAnimating : Bool
deriving DecidableEq, Repr

/-- A call to `canvasRef.current.animateToTarget(target, spin)`.  `tripleSpin =
true` is the search-driven "TripleSpin" mode, `false` the click-driven
"DirectEase" mode. -/
structure CamRequest (P : Type) where
  target : P
  tripleSpin : Bool
deriving DecidableEq, Repr

/-- The observable effect of one handler invocation: the next React state, the
camera-animation requests issued, the guard-timer durations (ms) armed via
`setTimeout`, whether `cancelAnimation()` was forwarded to the canvas, and
whether a `TypeError` escaped the handler. -/
structure StepOut (P : Type) where
  state : CtrlState
  requests : List (CamRequest P) := []
  timers : List ℕ := []
  fwdCancel : Bool := false
  threw : Bool := false
deriving DecidableEq, Repr

/-- JavaScript array indexing `bodies[i]`: `undefined` (here `none`) for any
index outside `[0, length)`. -/
def jsElem {P : Type} (bodies : List P) (i : ℤ) : Option P :=
  if 0 ≤ i then bodies[i.toNat]? else none

/-- `handleSearchSelect` from `src/Frontend/src/App.tsx` lines 149-155:
guard `isAnimating || index >= communities.length`, then
`setIsAnimating(true)`, `setSelectedPlanet(index)`,
`animateToTarget(communities[index].position3D, true)`,
`setTimeout(() => setIsAnimating(false), 3700)`.  For an index that passes the
guard but is not a valid array index (any negative index), the two state
setters have run when `communities[index].position3D` throws. -/
def handleSearchSelect {P : Type} (bodies : List P) (c : CtrlState) (index : ℤ) :
    StepOut P :=
  if c.isAnimating ∨ (bodies.length : ℤ) ≤ index then { state := c }
  else
    match jsElem bodies index with
    | some p =>
        { state := ⟨some index, true⟩, requests := [⟨p, true⟩], timers := [3700] }
    | none => { state := ⟨some index, true⟩, threw := true }

/-- `handlePlanetClick` from `src/Frontend/src/App.tsx` lines 158-169: same
guard; if `selectedPlanet === index` it only runs `setSelectedPlanet(null)`,
otherwise it behaves like search selection but with `animateToTarget(_, false)`
and a 1250 ms guard timer. -/
def handlePlanetClick {P : Type} (bodies : List P) (c : CtrlState) (index : ℤ) :
    StepOut P :=
  if c.isAnimating ∨ (bodies.length : ℤ) ≤ index then { state := c }
  else if c.selectedPlanet = some index then
    { state := { c with selectedPlanet := none } }
  else
    match jsElem bodies index with
    | some p =>
        { state := ⟨some index, true⟩, requests := [⟨p, false⟩], timers := [1250] }
    | none => { state := ⟨some index, true⟩, threw := true }

/-- The Escape-key handler from `src/Frontend/src/App.tsx` lines 172-182:
`cancelAnimation()`, `setSelectedPlanet(null)`, `setIsAnimating(false)`,
unconditionally. -/
def handleEscape {P : Type} (_c : CtrlState) : StepOut P :=
  { state := ⟨none, false⟩, fwdCancel := true }

/-- A user-intent event delivered to the controller. -/
inductive Ev where
  | search (i : ℤ)
  | click (i : ℤ)
  | cancel
deriving DecidableEq, Repr

/-- Whole-system state used for the timed semantics: the React state, the
pending guard timers (absolute expiry times in ms), and the logs of issued
camera requests (timestamped), forwarded cancels, and escaped exceptions. -/
structure SysState (P : Type) where
  ctrl : CtrlState
  timers : List ℕ
  requests : List (ℕ × CamRequest P)
  cancelsForwarded : List ℕ
  threw : Bool
deriving DecidableEq, Repr

/-- The initial mounted state: nothing selected, not animating, no timers. -/
def initSys (P : Type) : SysState P :=
  ⟨⟨none, false⟩, [], [], [], false⟩

/-- Fire every pending guard timer whose expiry has been reached.  Each timer's
callback is `setIsAnimating(false)`, so `isAnimating` becomes `false` exactly
when at least one timer fires; firing is idempotent. -/
def fireDue {P : Type} (now : ℕ) (s : SysState P) : SysState P :=
  { s with
    ctrl := { s.ctrl with
      isAnimating :=
        if s.timers.any (fun e => decide (e ≤ now)) then false
        else s.ctrl.isAnimating }
    timers := s.timers.filter (fun e => decide (now < e)) }

/-- Merge a handler's effects, occurring at absolute time `t`, into the system
state.  Durations armed by the handler become absolute expiries `t + d`. -/
def applyOut {P : Type} (t : ℕ) (s : SysState P) (o : StepOut P) : SysState P :=
  { ctrl := o.state
    timers := s.timers ++ o.timers.map (fun d => t + d)
    requests := s.requests ++ o.requests.map (fun r => (t, r))
    cancelsForwarded := s.cancelsForwarded ++ (if o.fwdCancel then [t] else [])
    threw := s.threw || o.threw }

/-- Dispatch one event to the corresponding handler. -/
def handlerOf {P : Type} (bodies : List P) (c : CtrlState) : Ev → StepOut P
  | .search i => handleSearchSelect bodies c i
  | .click i => handlePlanetClick bodies c i
  | .cancel => handleEscape c

/-- One timed step: timers due at the event's time fire first (the host's timer
queue runs before the event handler), then the event is handled. -/
def step {P : Type} (bodies : List P) (s : SysState P) (te : ℕ × Ev) : SysState P :=
  let s1 := fireDue te.1 s
  applyOut te.1 s1 (handlerOf bodies s1.ctrl te.2)

/-- Run a timestamped event trace (times nondecreasing) through the controller. -/
def run {P : Type} (bodies : List P) (s : SysState P) (tr : List (ℕ × Ev)) :
    SysState P :=
  tr.foldl (step bodies) s

/-!
The user-space universe view (`UserSpace` in `src/unnamed/part_002`, lines
136-169) carries its own copy of the three handlers over `userCommunities`.
They are transcribed here separately so that the home-page and user-space
selection logic can be compared. -/

namespace UserSpacePage

/-- `handleSearchSelect` from `src/unnamed/part_002` lines 136-142 (user-space
copy): guard `isAnimating || index >= userCommunities.length`, set state, issue
`animateToTarget(userCommunities[index].position3D, true)`, arm 3700 ms. -/
def handleSearchSelect {P : Type} (bodies : List P) (c : CtrlState) (index : ℤ) :
    StepOut P :=
  if c.isAnimating ∨ (bodies.length : ℤ) ≤ index then { state := c }
  else
    match jsElem bodies index with
    | some p =>
        { state := ⟨some index, true⟩, requests := [⟨p, true⟩], timers := [3700] }
    | none => { state := ⟨some index, true⟩, threw := true }

/-- `handlePlanetClick` from `src/unnamed/part_002` lines 145-156 (user-space
copy): toggle-off when `selectedPlanet === index`, otherwise `DirectEase`
request and a 1250 ms guard timer. -/
def handlePlanetClick {P : Type} (bodies : List P) (c : CtrlState) (index : ℤ) :
    StepOut P :=
  if c.isAnimating ∨ (bodies.length : ℤ) ≤ index then { state := c }
  else if c.selectedPlanet = some index then
    { state := { c with selectedPlanet := none } }
  else
    match jsElem bodies index with
    | some p =>
        { state := ⟨some index, true⟩, requests := [⟨p, false⟩], timers := [1250] }
    | none => { state := ⟨some index, true⟩, threw := true }

/-- The Escape-key handler from `src/unnamed/part_002` lines 159-169
(user-space copy). -/
def handleEscape {P : Type} (_c : CtrlState) : StepOut P :=
  { state := ⟨none, false⟩, fwdCancel := true }

/-- Event dispatch for the user-space copy of the handlers. -/
def handlerOf {P : Type} (bodies : List P) (c : CtrlState) : Ev → StepOut P
  | .search i => handleSearchSelect bodies c i
  | .click i => handlePlanetClick bodies c i
  | .cancel => handleEscape c

/-- One timed step of the user-space controller. -/
def step {P : Type} (bodies : List P) (s : SysState P) (te : ℕ × Ev) : SysState P :=
  let s1 := fireDue te.1 s
  applyOut te.1 s1 (handlerOf bodies s1.ctrl te.2)

/-- Run a timestamped event trace through the user-space controller. -/
def run {P : Type} (bodies : List P) (s : SysState P) (tr : List (ℕ × Ev)) :
    SysState P :=
  tr.foldl (step bodies) s

end UserSpacePage

/-- A selection event of either kind: `true` is search-driven, `false` is
click-driven. -/
def evOf (isSearch : Bool) (i : ℤ) : Ev :=
  if isSearch then .search i else .click i

/-- The guard-timer duration the source arms for each selection kind. -/
def durOf (isSearch : Bool) : ℕ :=
  if isSearch then 3700 else 1250

/-- A selection accepted at `t0`, cancelled at `tc`, followed by a second
selection at `t1`. -/
def doubleSelectTrace (m1 m2 : Bool) (i j : ℤ) (t0 tc t1 : ℕ) : List (ℕ × Ev) :=
  [(t0, evOf m1 i), (tc, .cancel), (t1, evOf m2 j)]

/-!
Renderer/announcer reads of `selectedPlanet` (`src/Frontend/src/App.tsx`; the
user-space view repeats the same expressions):
* lines 343-345: per-body props
  `isSelected={selectedPlanet === index}`,
  `isDimmed={selectedPlanet !== null && selectedPlanet !== index}`,
  `isBlurred={selectedPlanet !== null && selectedPlanet !== index}`;
* lines 318-327: the open-community button is rendered when
  `selectedPlanet !== null && selectedPlanet < communities.length`;
* lines 358-363: the accessibility announcement is
  `Centered on <name>. Press Escape to return.` under the same length-checked
  condition, else the empty string.
-/

/-- `isSelected` prop of the body rendered at `index`. -/
def isSelectedOf (sel : Option ℤ) (index : ℕ) : Bool :=
  decide (sel = some (index : ℤ))

/-- `isDimmed` prop of the body rendered at `index`. -/
def isDimmedOf (sel : Option ℤ) (index : ℕ) : Bool :=
  decide (sel ≠ none) && decide (sel ≠ some (index : ℤ))

/-- `isBlurred` prop of the body rendered at `index` (the source repeats the
`isDimmed` expression verbatim). -/
def isBlurredOf (sel : Option ℤ) (index : ℕ) : Bool :=
  decide (sel ≠ none) && decide (sel ≠ some (index : ℤ))

/-- Visibility of the open-community button. -/
def openCommunityVisible (sel : Option ℤ) (len : ℕ) : Bool :=
  match sel with
  | none => false
  | some i => decide (i < (len : ℤ))

/-- The accessibility announcement text; `none` models the `TypeError` that
`communities[selectedPlanet].name` would raise for a negative stored index
passing the `selectedPlanet < communities.length` test. -/
def announcementText (names : List String) (sel : Option ℤ) : Option String :=
  match sel with
  | none => some ""
  | some i =>
      if i < (names.length : ℤ) then
        (jsElem names i).map
          (fun n => "Centered on " ++ n ++ ". Press Escape to return.")
      else some ""

/-!
Visual derivation (`generateVisualProperties` / `mapDtoToCommunity`,
`src/Frontend/src/App.tsx` lines 53-101; `src/unnamed/part_002` lines 46-86 is
the same computation).  JavaScript numbers are embedded as exact reals. -/

noncomputable section

/-- JavaScript's `%` on nonnegative operands (`a % b = a - b * floor (a / b)`
for `a ≥ 0`, `b > 0`), used as `(index * 137.5) % 360`. -/
def jsMod (a b : ℝ) : ℝ := a - b * ⌊a / b⌋

/-- A 3D point, the `[x, y, z]` tuple `position3D`. -/
structure Vec3 where
  x : ℝ
  y : ℝ
  z : ℝ

/-- The two-colour palette `['#28f5cc', '#04ad7b']`. -/
def colors : List String := ["#28f5cc", "#04ad7b"]

/-- `const angle = (index * 137.5) % 360` (degrees). -/
def angleDeg (i : ℕ) : ℝ := jsMod ((i : ℝ) * 137.5) 360

/-- `const radius = 8 + (index % 3) * 2`. -/
def tierRadius (i : ℕ) : ℝ := 8 + ((i % 3 : ℕ) : ℝ) * 2

/-- `const height = (index % 7) - 3`. -/
def tierHeight (i : ℕ) : ℝ := ((i % 7 : ℕ) : ℝ) - 3

/-- Degrees to radians, `(angle * Math.PI) / 180`. -/
def degToRad (d : ℝ) : ℝ := d * Real.pi / 180

/-- The index-derived fields returned by `generateVisualProperties` (the
2D legacy `position`, `delay`, `members` and `category` fields are not part of
the orbit-body data the claims concern). -/
structure VisualProps where
  color : String
  size : ℝ
  position3D : Vec3
  orbitSpeed : ℝ
  orbitRadius : ℝ

/-- `generateVisualProperties` (`src/Frontend/src/App.tsx` lines 53-90): all
fields are derived from the 0-based index alone. -/
def generateVisualProperties (i : ℕ) : VisualProps :=
  let color := colors.getD (i % colors.length) ""
  let size : ℝ := 80 + ((i % 5 : ℕ) : ℝ) * 20
  let angle := angleDeg i
  let radius := tierRadius i
  let height := tierHeight i
  let x := Real.cos (degToRad angle) * radius
  let z := Real.sin (degToRad angle) * radius
  let y := height
  let orbitSpeed : ℝ := 0.08 + ((i % 5 : ℕ) : ℝ) * 0.03
  let orbitRadius : ℝ := 0.3 + ((i % 4 : ℕ) : ℝ) * 0.1
  { color := color, size := size, position3D := ⟨x, y, z⟩,
    orbitSpeed := orbitSpeed, orbitRadius := orbitRadius }

/-- The backend record fields `mapDtoToCommunity` copies through. -/
structure CommunityRecord where
  id : ℤ
  name : String
  description : String

/-- A community together with its derived visuals (`CommunityWithVisuals`). -/
structure CommunityWithVisuals where
  id : ℤ
  name : String
  description : String
  visuals : VisualProps

/-- `mapDtoToCommunity(dto, index)`. -/
def mapDtoToCommunity (dto : CommunityRecord) (i : ℕ) : CommunityWithVisuals :=
  ⟨dto.id, dto.name, dto.description, generateVisualProperties i⟩

/-- Index-passing recursion implementing
`data.map((dto, index) => mapDtoToCommunity(dto, index))` starting at `k`. -/
def deriveVisualsAux (k : ℕ) : List CommunityRecord → List CommunityWithVisuals
  | [] => []
  | r :: rs => mapDtoToCommunity r k :: deriveVisualsAux (k + 1) rs

/-- The registry derivation: `data.map((dto, index) => mapDtoToCommunity(dto,
index))`. -/
def deriveVisuals (records : List CommunityRecord) : List CommunityWithVisuals :=
  deriveVisualsAux 0 records

/-- Modelled from the spec, section 4.1 (the spec's own formulas for
`deriveVisuals`, to be compared with the source embedding): angle, radius,
height, basePosition, orbit parameters, visual size and colour of the body at
index `i`.  `cos`/`sin` of a degree value are interpreted through the
degree-to-radian conversion. -/
structure SpecBody where
  angle : ℝ
  radius : ℝ
  height : ℝ
  basePosition : Vec3
  orbitRadius : ℝ
  orbitSpeed : ℝ
  visualSize : ℝ
  color : String

/-- Modelled from the spec, section 4.1: the body the spec's formulas assign to
index `i`: `angle = (i × 137.5°) mod 360°`, `radius = 8 + (i mod 3) × 2`,
`height = (i mod 7) − 3`, `basePosition = (radius·cos(angle), height,
radius·sin(angle))`, `orbitRadius = 0.3 + (i mod 4) × 0.1`, `orbitSpeed = 0.08 +
(i mod 5) × 0.03`, `visualSize = 80 + (i mod 5) × 20`,
`color = palette[i mod paletteSize]`. -/
def specBody (i : ℕ) : SpecBody :=
  let angle := jsMod ((i : ℝ) * 137.5) 360
  let radius : ℝ := 8 + ((i % 3 : ℕ) : ℝ) * 2
  let height : ℝ := ((i % 7 : ℕ) : ℝ) - 3
  { angle := angle
    radius := radius
    height := height
    basePosition := ⟨radius * Real.cos (degToRad angle), height,
      radius * Real.sin (degToRad angle)⟩
    orbitRadius := 0.3 + ((i % 4 : ℕ) : ℝ) * 0.1
    orbitSpeed := 0.08 + ((i % 5 : ℕ) : ℝ) * 0.03
    visualSize := 80 + ((i % 5 : ℕ) : ℝ) * 20
    color := colors.getD (i % colors.length) "" }

end

/-! ### Helper lemmas -/

/-- A successful JavaScript array access implies the index is in bounds. -/
theorem jsElem_bounds {P : Type} {bodies : List P} {i : ℤ} {p : P}
    (h : jsElem bodies i = some p) : 0 ≤ i ∧ i < (bodies.length : ℤ) := by
  unfold jsElem at h
  split at h
  · next h0 =>
    refine ⟨h0, ?_⟩
    by_contra hge
    rw [List.getElem?_eq_none (by omega)] at h
    exact Option.noConfusion h
  · exact Option.noConfusion h

/-- Firing timers is the identity when no pending timer is due. -/
theorem fireDue_of_not_due {P : Type} (now : ℕ) (s : SysState P)
    (h : ∀ e ∈ s.timers, now < e) : fireDue now s = s := by
  obtain ⟨⟨sel, anim⟩, tm, rq, cf, th⟩ := s
  have h1 : tm.any (fun e => decide (e ≤ now)) = false := by
    simp only [List.any_eq_false, decide_eq_true_eq, not_le]
    exact fun e he => h e he
  have h2 : tm.filter (fun e => decide (now < e)) = tm :=
    List.filter_eq_self.mpr fun e he => by simpa using h e he
  simp [fireDue, h1, h2]

/-- An in-bounds selection of either kind, issued while not animating and (for
clicks) not equal to the current selection, is accepted with the corresponding
animation mode and guard duration. -/
theorem handlerOf_evOf_accept {P : Type} (bodies : List P) (m : Bool) (i : ℤ)
    (p : P) (c : CtrlState) (hel : jsElem bodies i = some p)
    (hA : c.isAnimating = false) (hsel : c.selectedPlanet ≠ some i) :
    handlerOf bodies c (evOf m i) =
      { state := ⟨some i, true⟩, requests := [⟨p, m⟩], timers := [durOf m] } := by
  have hb := jsElem_bounds hel
  cases m <;>
    simp [handlerOf, evOf, durOf, handleSearchSelect, handlePlanetClick, hel, hA,
      hsel, not_le.mpr hb.2]

/-! ### Claim theorems -/

/-- C1: while `isAnimating` is true, `selectViaSearch(i)` and
`selectViaClick(i)` are rejected as true no-ops for every index `i` — the state
is unchanged and no camera request, guard timer, cancel or exception is
produced — while `cancel()` is still accepted. -/
theorem c1_animating_rejects_selections {P : Type} (bodies : List P)
    (c : CtrlState) (i : ℤ) (h : c.isAnimating = true) :
    handleSearchSelect bodies c i = { state := c } ∧
    handlePlanetClick bodies c i = { state := c } ∧
    handleEscape (P := P) c = { state := ⟨none, false⟩, fwdCancel := true } := by
  refine ⟨?_, ?_, rfl⟩ <;> simp [handleSearchSelect, handlePlanetClick, h]

/-- Witness for C1 at a concrete animating state. -/
theorem c1_animating_rejects_selections_witness :
    (⟨some 0, true⟩ : CtrlState).isAnimating = true ∧
    handleSearchSelect [3] ⟨some 0, true⟩ 5 = { state := ⟨some 0, true⟩ } ∧
    handlePlanetClick [3] ⟨some 0, true⟩ 5 = { state := ⟨some 0, true⟩ } := by
  have h := c1_animating_rejects_selections (P := ℕ) [3] ⟨some 0, true⟩ 5 rfl
  exact ⟨rfl, h.1, h.2.1⟩

/-- C2: when not animating, an in-bounds `selectViaSearch(i)` immediately sets
`selectedIndex = i` and `isAnimating = true`, issues exactly one TripleSpin
request at body `i`'s position, arms a 3700 ms guard timer, and — with no
further calls — `isAnimating` is false once 3700 ms have elapsed. -/
theorem c2_search_accepts_and_guards {P : Type} (bodies : List P) (i : ℤ)
    (p : P) (t0 : ℕ) (hel : jsElem bodies i = some p) :
    (∀ c : CtrlState, c.isAnimating = false →
        handleSearchSelect bodies c i =
          { state := ⟨some i, true⟩, requests := [⟨p, true⟩], timers := [3700] }) ∧
    run bodies (initSys P) [(t0, .search i)] =
      ⟨⟨some i, true⟩, [t0 + 3700], [(t0, ⟨p, true⟩)], [], false⟩ ∧
    ∀ T, t0 + 3700 ≤ T →
      (fireDue T (run bodies (initSys P) [(t0, .search i)])).ctrl.isAnimating
        = false := by
  have hb := jsElem_bounds hel
  have haccept : ∀ c : CtrlState, c.isAnimating = false →
      handleSearchSelect bodies c i =
        { state := ⟨some i, true⟩, requests := [⟨p, true⟩], timers := [3700] } := by
    intro c hc
    simp [handleSearchSelect, hc, hel, not_le.mpr hb.2]
  have hrun : run bodies (initSys P) [(t0, .search i)] =
      ⟨⟨some i, true⟩, [t0 + 3700], [(t0, ⟨p, true⟩)], [], false⟩ := by
    simp [run, step, initSys, fireDue, applyOut, handlerOf, haccept ⟨none, false⟩ rfl]
  refine ⟨haccept, hrun, fun T hT => ?_⟩
  rw [hrun]
  simp [fireDue, hT]

/-- Witness for C2 on a two-body list. -/
theorem c2_search_accepts_and_guards_witness :
    jsElem [7, 8] (0 : ℤ) = some 7 ∧
    run [7, 8] (initSys ℕ) [(5, .search 0)] =
      ⟨⟨some 0, true⟩, [5 + 3700], [(5, ⟨7, true⟩)], [], false⟩ ∧
    (fireDue 3705 (run [7, 8] (initSys ℕ) [(5, .search 0)])).ctrl.isAnimating
      = false := by
  have h := c2_search_accepts_and_guards [7, 8] 0 7 5 (by decide)
  exact ⟨by decide, h.2.1, h.2.2 3705 (by decide)⟩

/-- C3: when not animating and `i` is in bounds, `selectViaClick(i)` toggles the
selection off (no request, no timer, `isAnimating` stays false) when `i` is the
current selection, and otherwise selects `i`, issues one DirectEase request at
body `i`'s position and arms a 1250 ms guard timer. -/
theorem c3_click_toggle_or_select {P : Type} (bodies : List P) (c : CtrlState)
    (i : ℤ) (p : P) (hA : c.isAnimating = false)
    (hel : jsElem bodies i = some p) :
    (c.selectedPlanet = some i →
        handlePlanetClick bodies c i = { state := ⟨none, false⟩ }) ∧
    (c.selectedPlanet ≠ some i →
        handlePlanetClick bodies c i =
          { state := ⟨some i, true⟩, requests := [⟨p, false⟩],
            timers := [1250] }) := by
  have hb := jsElem_bounds hel
  constructor
  · intro hsel
    simp [handlePlanetClick, hA, hsel, not_le.mpr hb.2]
  · intro hsel
    simp [handlePlanetClick, hA, hsel, hel, not_le.mpr hb.2]

/-- Witness for C3: both the toggle-off branch and the select branch at
concrete states. -/
theorem c3_click_toggle_or_select_witness :
    handlePlanetClick [7, 8] ⟨some 1, false⟩ 1 = { state := ⟨none, false⟩ } ∧
    handlePlanetClick [7, 8] ⟨none, false⟩ 1 =
      { state := ⟨some 1, true⟩, requests := [⟨8, false⟩], timers := [1250] } := by
  refine ⟨(c3_click_toggle_or_select [7, 8] ⟨some 1, false⟩ 1 8 rfl (by decide)).1
      rfl, ?_⟩
  exact (c3_click_toggle_or_select [7, 8] ⟨none, false⟩ 1 8 rfl (by decide)).2
    (by decide)

/-- C4: `cancel()` is accepted in every state — immediately afterwards the
selection is cleared and `isAnimating` is false, and a cancel has been
forwarded to the animator; in particular after `selectViaClick(1)` followed by
`cancel()` inside the 1250 ms guard window the state is already cleared at the
time of the cancel, not at the end of the window. -/
theorem c4_cancel_always_accepted {P : Type} (bodies : List P) (j : ℤ) (p : P)
    (t0 t1 : ℕ) (hel : jsElem bodies j = some p) (h01 : t0 < t1)
    (h1w : t1 < t0 + 1250) :
    (∀ c : CtrlState,
        handleEscape (P := P) c = { state := ⟨none, false⟩, fwdCancel := true }) ∧
    run bodies (initSys P) [(t0, .click j), (t1, .cancel)] =
      ⟨⟨none, false⟩, [t0 + 1250], [(t0, ⟨p, false⟩)], [t1], false⟩ := by
  have hb := jsElem_bounds hel
  refine ⟨fun c => rfl, ?_⟩
  have hclick : handlerOf bodies (⟨none, false⟩ : CtrlState) (Ev.click j) =
      { state := ⟨some j, true⟩, requests := [⟨p, false⟩], timers := [1250] } :=
    handlerOf_evOf_accept bodies false j p ⟨none, false⟩ hel rfl (by simp)
  have h1 : step bodies (initSys P) (t0, .click j) =
      ⟨⟨some j, true⟩, [t0 + 1250], [(t0, ⟨p, false⟩)], [], false⟩ := by
    simp [step, initSys, fireDue, applyOut, hclick]
  have h2 : step bodies
      (⟨⟨some j, true⟩, [t0 + 1250], [(t0, ⟨p, false⟩)], [], false⟩ : SysState P)
      (t1, .cancel) =
      ⟨⟨none, false⟩, [t0 + 1250], [(t0, ⟨p, false⟩)], [t1], false⟩ := by
    rw [step, fireDue_of_not_due t1 _ (by intro e he; simp at he; omega)]
    simp [handlerOf, handleEscape, applyOut]
  simp [run, List.foldl, h1, h2]

/-- Witness for C4 at a concrete click-then-cancel trace. -/
theorem c4_cancel_always_accepted_witness :
    run [7, 8] (initSys ℕ) [(10, .click 1), (400, .cancel)] =
      ⟨⟨none, false⟩, [10 + 1250], [(10, ⟨8, false⟩)], [400], false⟩ := by
  exact (c4_cancel_always_accepted [7, 8] 1 8 10 400 (by decide) (by decide)
    (by decide)).2

/-- C5 fails as stated: on a three-body list with no animation running, the
negative index `-1` is not rejected — the guard only tests
`index >= communities.length` — so both handlers mutate the state to
`selectedPlanet = -1`, `isAnimating = true` and a `TypeError`
(`communities[-1].position3D` on `undefined`) escapes the handler. -/
theorem c5_negative_index_counterexample :
    (handleSearchSelect [10, 20, 30] ⟨none, false⟩ (-1)).threw = true ∧
    (handleSearchSelect [10, 20, 30] ⟨none, false⟩ (-1)).state
      = ⟨some (-1), true⟩ ∧
    (handlePlanetClick [10, 20, 30] ⟨none, false⟩ (-1)).threw = true ∧
    (handlePlanetClick [10, 20, 30] ⟨none, false⟩ (-1)).state
      = ⟨some (-1), true⟩ := by
  decide

/-- C5 amended: only indices at or above the list length are silently ignored —
for every `i ≥ length`, both handlers are true no-ops (state unchanged, no
request, no timer, no exception); negative indices are not guarded. -/
theorem c5_overlength_silently_ignored {P : Type} (bodies : List P)
    (c : CtrlState) (i : ℤ) (h : (bodies.length : ℤ) ≤ i) :
    handleSearchSelect bodies c i = { state := c } ∧
    handlePlanetClick bodies c i = { state := c } := by
  constructor <;> simp [handleSearchSelect, handlePlanetClick, h]

/-- Witness for the amended C5 at a concrete over-length index. -/
theorem c5_overlength_silently_ignored_witness :
    ((([1, 2] : List ℕ).length : ℤ) ≤ 5) ∧
    handleSearchSelect [1, 2] ⟨none, false⟩ 5 = { state := ⟨none, false⟩ } ∧
    handlePlanetClick [1, 2] ⟨none, false⟩ 5 = { state := ⟨none, false⟩ } := by
  have h := c5_overlength_silently_ignored [1, 2] ⟨none, false⟩ 5 (by decide)
  exact ⟨by decide, h.1, h.2⟩

/-- C6 fails on the per-body styling props: with three bodies and a stale
`selectedPlanet = 4`, the announcement and the open-community button degrade to
the nothing-selected output, and `isSelected` is false for every body, but
`isDimmed`/`isBlurred` — which omit the `< length` check — are `true` for every
body whereas nothing-selected renders them `false`. -/
theorem c6_stale_index_dimming_diverges :
    announcementText ["a", "b", "c"] (some 4)
      = announcementText ["a", "b", "c"] none ∧
    openCommunityVisible (some 4) 3 = openCommunityVisible none 3 ∧
    (isSelectedOf (some 4) 0 = isSelectedOf none 0 ∧
      isSelectedOf (some 4) 1 = isSelectedOf none 1 ∧
      isSelectedOf (some 4) 2 = isSelectedOf none 2) ∧
    isDimmedOf (some 4) 0 = true ∧ isDimmedOf none 0 = false ∧
    isBlurredOf (some 4) 0 = true ∧ isBlurredOf none 0 = false := by
  decide

/-- Index bookkeeping for the registry derivation. -/
theorem deriveVisualsAux_getElem? (records : List CommunityRecord) (k i : ℕ) :
    (deriveVisualsAux k records)[i]? =
      (records[i]?).map (fun r => mapDtoToCommunity r (k + i)) := by
  induction records generalizing k i with
  | nil => simp [deriveVisualsAux]
  | cons r rs ih =>
      cases i with
      | zero => simp [deriveVisualsAux]
      | succ n =>
          have harith : k + 1 + n = k + (n + 1) := by omega
          simp only [deriveVisualsAux, List.getElem?_cons_succ, ih (k + 1) n,
            harith]

/-- C7: `deriveVisuals` is the total function mapping the record at 0-based
index `i` to the body whose visual fields are exactly the spec's golden-angle
formulas (`specBody`); the empty input yields the empty output, and the `i`-th
output is determined by the `i`-th input record and `i` alone. -/
theorem c7_deriveVisuals_matches_spec :
    deriveVisuals [] = [] ∧
    (∀ (records : List CommunityRecord) (i : ℕ) (r : CommunityRecord),
        records[i]? = some r →
        (deriveVisuals records)[i]? = some (mapDtoToCommunity r i)) ∧
    ∀ i : ℕ,
      (generateVisualProperties i).position3D = (specBody i).basePosition ∧
      (generateVisualProperties i).size = (specBody i).visualSize ∧
      (generateVisualProperties i).orbitSpeed = (specBody i).orbitSpeed ∧
      (generateVisualProperties i).orbitRadius = (specBody i).orbitRadius ∧
      (generateVisualProperties i).color = (specBody i).color := by
  refine ⟨rfl, ?_, ?_⟩
  · intro records i r hr
    rw [deriveVisuals, deriveVisualsAux_getElem? records 0 i, hr]
    simp
  · intro i
    refine ⟨?_, rfl, rfl, rfl, rfl⟩
    simp only [generateVisualProperties, specBody, angleDeg, tierRadius,
      tierHeight, Vec3.mk.injEq]
    exact ⟨mul_comm _ _, trivial, mul_comm _ _⟩

/-- Witness for C7 on a one-record list. -/
theorem c7_deriveVisuals_matches_spec_witness :
    deriveVisuals [] = [] ∧
    (deriveVisuals [⟨1, "a", "d"⟩])[0]? = some (mapDtoToCommunity ⟨1, "a", "d"⟩ 0) ∧
    (generateVisualProperties 0).position3D = (specBody 0).basePosition := by
  have h := c7_deriveVisuals_matches_spec
  exact ⟨h.1, h.2.1 [⟨1, "a", "d"⟩] 0 ⟨1, "a", "d"⟩ rfl, (h.2.2 0).1⟩

/-- C9: the home-page and user-space universe views implement extensionally
equal selection logic — every handler call and every timed event trace produce
identical states, animation requests (with their modes) and guard timers. -/
theorem c9_home_userspace_extensionally_equal {P : Type} (bodies : List P)
    (c : CtrlState) (i : ℤ) (s : SysState P) (tr : List (ℕ × Ev)) :
    handleSearchSelect bodies c i = UserSpacePage.handleSearchSelect bodies c i ∧
    handlePlanetClick bodies c i = UserSpacePage.handlePlanetClick bodies c i ∧
    handleEscape (P := P) c = UserSpacePage.handleEscape (P := P) c ∧
    run bodies s tr = UserSpacePage.run bodies s tr := by
  refine ⟨rfl, rfl, rfl, ?_⟩
  induction tr generalizing s with
  | nil => rfl
  | cons te rest ih =>
      have hstep : step bodies s te = UserSpacePage.step bodies s te := by
        cases te.2 <;> rfl
      rw [run, UserSpacePage.run, List.foldl, List.foldl, hstep]
      exact ih (UserSpacePage.step bodies s te)

/-- C10 fails as stated: search-select body 0 at t = 0 (guard expiry 3700 ms),
cancel at t = 100, click-select body 1 at t = 200 (own window ends at
t = 1450).  The first timer is indeed still pending, but it fires at 3700,
which is not before 1450: at t = 1449 the controller is still animating and a
new selection is rejected as a no-op, and it is the second selection's own
timer that clears `isAnimating` at t = 1450. -/
theorem c10_early_clear_counterexample :
    (run [10, 20] (initSys ℕ) (doubleSelectTrace true false 0 1 0 100 200)).timers
      = [0 + 3700, 200 + 1250] ∧
    ¬ (0 + 3700 < 200 + 1250) ∧
    (fireDue 1449 (run [10, 20] (initSys ℕ)
      (doubleSelectTrace true false 0 1 0 100 200))).ctrl.isAnimating = true ∧
    (fireDue 1450 (run [10, 20] (initSys ℕ)
      (doubleSelectTrace true false 0 1 0 100 200))).ctrl.isAnimating = false ∧
    handleSearchSelect [10, 20]
        (fireDue 1449 (run [10, 20] (initSys ℕ)
          (doubleSelectTrace true false 0 1 0 100 200))).ctrl 0
      = { state := (fireDue 1449 (run [10, 20] (initSys ℕ)
          (doubleSelectTrace true false 0 1 0 100 200))).ctrl } := by
  decide

/-- C10 amended: guard timers are never cancelled — after select at `t0`,
cancel at `tc`, and a second accepted selection at `t1` before the first
expiry, both timers are still pending and the first still fires at
`t0 + durOf m1`; provided that expiry precedes the second selection's own
window end `t1 + durOf m2` (which fails when a 3700 ms search guard overlaps a
later 1250 ms click guard), the first timer clears `isAnimating` while the
second animation is still nominally in flight, so a new in-bounds selection is
accepted at that moment. -/
theorem c10_first_timer_persists {P : Type} (bodies : List P) (m1 m2 : Bool)
    (i j : ℤ) (p q : P) (t0 tc t1 : ℕ) (hi : jsElem bodies i = some p)
    (hj : jsElem bodies j = some q) (_h0c : t0 < tc) (hc1 : tc < t1)
    (h1w : t1 < t0 + durOf m1) (hord : t0 + durOf m1 < t1 + durOf m2) :
    run bodies (initSys P) (doubleSelectTrace m1 m2 i j t0 tc t1) =
      ⟨⟨some j, true⟩, [t0 + durOf m1, t1 + durOf m2],
        [(t0, ⟨p, m1⟩), (t1, ⟨q, m2⟩)], [tc], false⟩ ∧
    (fireDue (t0 + durOf m1) (run bodies (initSys P)
        (doubleSelectTrace m1 m2 i j t0 tc t1))).ctrl.isAnimating = false ∧
    t0 + durOf m1 < t1 + durOf m2 ∧
    handleSearchSelect bodies
        (fireDue (t0 + durOf m1) (run bodies (initSys P)
          (doubleSelectTrace m1 m2 i j t0 tc t1))).ctrl j =
      { state := ⟨some j, true⟩, requests := [⟨q, true⟩], timers := [3700] } := by
  have hbj := jsElem_bounds hj
  have h1 : step bodies (initSys P) (t0, evOf m1 i) =
      ⟨⟨some i, true⟩, [t0 + durOf m1], [(t0, ⟨p, m1⟩)], [], false⟩ := by
    simp [step, initSys, fireDue, applyOut,
      handlerOf_evOf_accept bodies m1 i p ⟨none, false⟩ hi rfl (by simp)]
  have h2 : step bodies
      (⟨⟨some i, true⟩, [t0 + durOf m1], [(t0, ⟨p, m1⟩)], [], false⟩ : SysState P)
      (tc, .cancel) =
      ⟨⟨none, false⟩, [t0 + durOf m1], [(t0, ⟨p, m1⟩)], [tc], false⟩ := by
    rw [step, fireDue_of_not_due tc _ (by intro e he; simp at he; omega)]
    simp [handlerOf, handleEscape, applyOut]
  have h3 : step bodies
      (⟨⟨none, false⟩, [t0 + durOf m1], [(t0, ⟨p, m1⟩)], [tc], false⟩ : SysState P)
      (t1, evOf m2 j) =
      ⟨⟨some j, true⟩, [t0 + durOf m1, t1 + durOf m2],
        [(t0, ⟨p, m1⟩), (t1, ⟨q, m2⟩)], [tc], false⟩ := by
    rw [step, fireDue_of_not_due t1 _ (by intro e he; simp at he; omega)]
    simp [applyOut,
      handlerOf_evOf_accept bodies m2 j q ⟨none, false⟩ hj rfl (by simp)]
  have hrun : run bodies (initSys P) (doubleSelectTrace m1 m2 i j t0 tc t1) =
      ⟨⟨some j, true⟩, [t0 + durOf m1, t1 + durOf m2],
        [(t0, ⟨p, m1⟩), (t1, ⟨q, m2⟩)], [tc], false⟩ := by
    simp [doubleSelectTrace, run, List.foldl, h1, h2, h3]
  have hfire : (fireDue (t0 + durOf m1) (run bodies (initSys P)
      (doubleSelectTrace m1 m2 i j t0 tc t1))).ctrl =
      ⟨some j, false⟩ := by
    rw [hrun]
    simp [fireDue]
  refine ⟨hrun, by rw [hfire], hord, ?_⟩
  rw [hfire]
  simp [handleSearchSelect, hj, not_le.mpr hbj.2]

/-- Witness for the amended C10: click at 0 (guard 1250), cancel at 100,
search at 200 (guard ends 3900 > 1250). -/
theorem c10_first_timer_persists_witness :
    run [5, 6] (initSys ℕ) (doubleSelectTrace false true 0 1 0 100 200) =
      ⟨⟨some 1, true⟩, [0 + durOf false, 200 + durOf true],
        [(0, ⟨5, false⟩), (200, ⟨6, true⟩)], [100], false⟩ ∧
    (fireDue (0 + durOf false) (run [5, 6] (initSys ℕ)
        (doubleSelectTrace false true 0 1 0 100 200))).ctrl.isAnimating = false ∧
    0 + durOf false < 200 + durOf true := by
  have h := c10_first_timer_persists [5, 6] false true 0 1 5 6 0 100 200
    (by decide) (by decide) (by decide) (by decide) (by decide) (by decide)
  exact ⟨h.1, h.2.1, h.2.2.1⟩

/-- The JavaScript modulo as a scaled fractional part. -/
theorem jsMod_eq_fract (a b : ℝ) (hb : b ≠ 0) :
    jsMod a b = b * Int.fract (a / b) := by
  unfold jsMod Int.fract
  field_simp

/-- `jsMod` is nonnegative for a positive modulus. -/
theorem jsMod_nonneg (a b : ℝ) (hb : 0 < b) : 0 ≤ jsMod a b := by
  rw [jsMod_eq_fract a b hb.ne']
  exact mul_nonneg hb.le (Int.fract_nonneg _)

/-- `jsMod` is below a positive modulus. -/
theorem jsMod_lt (a b : ℝ) (hb : 0 < b) : jsMod a b < b := by
  rw [jsMod_eq_fract a b hb.ne']
  calc b * Int.fract (a / b) < b * 1 :=
        mul_lt_mul_of_pos_left (Int.fract_lt_one _) hb
    _ = b := mul_one b

/-- Every tier radius is positive. -/
theorem tierRadius_pos (i : ℕ) : 0 < tierRadius i := by
  unfold tierRadius
  positivity

/-- Two reduced angles in `[0°, 360°)` with equal sine and cosine are equal. -/
theorem angleDeg_inj_of_trig {i j : ℕ}
    (hc : Real.cos (degToRad (angleDeg i)) = Real.cos (degToRad (angleDeg j)))
    (hs : Real.sin (degToRad (angleDeg i)) = Real.sin (degToRad (angleDeg j))) :
    angleDeg i = angleDeg j := by
  have hi0 : 0 ≤ angleDeg i := jsMod_nonneg _ _ (by norm_num)
  have hi1 : angleDeg i < 360 := jsMod_lt _ _ (by norm_num)
  have hj0 : 0 ≤ angleDeg j := jsMod_nonneg _ _ (by norm_num)
  have hj1 : angleDeg j < 360 := jsMod_lt _ _ (by norm_num)
  have hpos : (0 : ℝ) < Real.pi / 180 := by positivity
  have e : degToRad (angleDeg i) - degToRad (angleDeg j)
      = (angleDeg i - angleDeg j) * (Real.pi / 180) := by
    unfold degToRad
    ring
  have h1 : Real.cos (degToRad (angleDeg i) - degToRad (angleDeg j)) = 1 := by
    rw [Real.cos_sub, hc, hs]
    linear_combination Real.sin_sq_add_cos_sq (degToRad (angleDeg j))
  have hlow : -(2 * Real.pi) < degToRad (angleDeg i) - degToRad (angleDeg j) := by
    rw [e]
    have h := mul_lt_mul_of_pos_right
      (show (-360 : ℝ) < angleDeg i - angleDeg j by linarith) hpos
    linarith
  have hhigh : degToRad (angleDeg i) - degToRad (angleDeg j) < 2 * Real.pi := by
    rw [e]
    have h := mul_lt_mul_of_pos_right
      (show angleDeg i - angleDeg j < (360 : ℝ) by linarith) hpos
    linarith
  have h0 := (Real.cos_eq_one_iff_of_lt_of_lt hlow hhigh).mp h1
  rw [e] at h0
  rcases mul_eq_zero.mp h0 with h | h
  · linarith
  · exact absurd h (ne_of_gt hpos)

/-- Equal reduced golden angles force index congruence modulo 144
(`137.5 · d ≡ 0 (mod 360)` iff `55 · d ≡ 0 (mod 144)` iff `144 ∣ d`). -/
theorem dvd_144_of_angleDeg_eq {i j : ℕ} (h : angleDeg i = angleDeg j) :
    (144 : ℤ) ∣ ((i : ℤ) - (j : ℤ)) := by
  unfold angleDeg jsMod at h
  set A : ℤ := ⌊((i : ℝ) * 137.5) / 360⌋ with hA
  set B : ℤ := ⌊((j : ℝ) * 137.5) / 360⌋ with hB
  have key : (275 : ℝ) * ((i : ℝ) - (j : ℝ)) = 720 * ((A : ℝ) - (B : ℝ)) := by
    linarith [h]
  have keyZ : (275 : ℤ) * ((i : ℤ) - (j : ℤ)) = 720 * (A - B) := by
    exact_mod_cast key
  exact ⟨55 * (A - B) - 21 * ((i : ℤ) - (j : ℤ)), by omega⟩

/-- Equal tier heights force index congruence modulo 7. -/
theorem mod7_of_tierHeight_eq {i j : ℕ} (h : tierHeight i = tierHeight j) :
    i % 7 = j % 7 := by
  unfold tierHeight at h
  have h7 : ((i % 7 : ℕ) : ℝ) = ((j % 7 : ℕ) : ℝ) := by linarith
  exact_mod_cast h7

/-- C8: for every list length `N ≤ 500`, the golden-angle placement gives
pairwise distinct `position3D` values in exact real arithmetic — a coincidence
would force `i ≡ j (mod 144)` (angle), `(mod 3)` (radius) and `(mod 7)`
(height), hence `i ≡ j (mod 1008)`, impossible below 500. -/
theorem c8_basePositions_pairwise_distinct (N : ℕ) (hN : N ≤ 500) (i j : ℕ)
    (hi : i < N) (hj : j < N) (hne : i ≠ j) :
    (generateVisualProperties i).position3D
      ≠ (generateVisualProperties j).position3D := by
  intro heq
  have heq' : (⟨Real.cos (degToRad (angleDeg i)) * tierRadius i, tierHeight i,
      Real.sin (degToRad (angleDeg i)) * tierRadius i⟩ : Vec3)
      = ⟨Real.cos (degToRad (angleDeg j)) * tierRadius j, tierHeight j,
      Real.sin (degToRad (angleDeg j)) * tierRadius j⟩ := heq
  have hx := congrArg Vec3.x heq'
  have hy := congrArg Vec3.y heq'
  have hz := congrArg Vec3.z heq'
  simp only at hx hy hz
  have hri := tierRadius_pos i
  have hrj := tierRadius_pos j
  have pyi := Real.sin_sq_add_cos_sq (degToRad (angleDeg i))
  have pyj := Real.sin_sq_add_cos_sq (degToRad (angleDeg j))
  have hsq : (tierRadius i) ^ 2 = (tierRadius j) ^ 2 := by
    linear_combination (-(tierRadius i) ^ 2) * pyi + (tierRadius j) ^ 2 * pyj
      + (Real.cos (degToRad (angleDeg i)) * tierRadius i
          + Real.cos (degToRad (angleDeg j)) * tierRadius j) * hx
      + (Real.sin (degToRad (angleDeg i)) * tierRadius i
          + Real.sin (degToRad (angleDeg j)) * tierRadius j) * hz
  have hr : tierRadius i = tierRadius j := by
    have hfac : (tierRadius i - tierRadius j) * (tierRadius i + tierRadius j)
        = 0 := by linear_combination hsq
    rcases mul_eq_zero.mp hfac with h | h
    · linarith
    · linarith
  rw [hr] at hx hz
  have hc := mul_right_cancel₀ (ne_of_gt hrj) hx
  have hs := mul_right_cancel₀ (ne_of_gt hrj) hz
  have hang := angleDeg_inj_of_trig hc hs
  have h144 := dvd_144_of_angleDeg_eq hang
  have h7 := mod7_of_tierHeight_eq hy
  omega

/-- Witness for C8: the first two bodies sit at distinct positions. -/
theorem c8_basePositions_pairwise_distinct_witness :
    (0 : ℕ) ≠ 1 ∧
    (generateVisualProperties 0).position3D
      ≠ (generateVisualProperties 1).position3D :=
  ⟨by decide, c8_basePositions_pairwise_distinct 2 (by norm_num) 0 1
    (by norm_num) (by norm_num) (by decide)⟩
